import Mathlib

/-!
Verification development for the SWJ_FDs_Paper averaging pipeline.

Shallow embedding of the repository's Python modules:
  * `datahandling/average_data.py`  (aggregator, quality filter, resampler)
  * `datahandling/import_data.py`   (station importer)
  * `coscal/correct_data.py`        (correction engine)

Missing values (numpy NaN) are modelled as `none : Option _`; numpy arrays
become lists; pandas dataframes become association lists of named columns
together with an integer timestamp index; Python exceptions become
`Except String`.  Data-handling arithmetic is embedded over `ℚ` so that
concrete runs are decidable; the correction engine and the Poisson error
(which use `exp` and `sqrt`) are embedded over `ℝ`.
-/

namespace SWJ

/-! ## Quality filter: `average_data.py` lines 285-339 -/

/-- One linear-interpolation step of `np.interp`: walk the sample points
`(x1, y1) :: rest` keeping the previous point `(x0, y0)`; the first sample
point at or beyond the query `x` determines the bracketing interval.
Queries beyond the last sample point clamp to its value. -/
def np_interp_go (x x0 y0 : ℚ) : List (ℚ × ℚ) → ℚ
  | [] => y0
  | (x1, y1) :: rest =>
      if x ≤ x1 then y0 + (x - x0) * (y1 - y0) / (x1 - x0)
      else np_interp_go x x1 y1 rest

/-- `np.interp x xp fp` for sample points `pts = zip xp fp` with `xp`
strictly increasing: queries before the first point clamp to its value,
queries after the last clamp likewise, interior queries are linearly
interpolated.  `np.interp` raises on an empty `xp`; callers guard that case,
so the `[]` branch here is dead code. -/
def np_interp (x : ℚ) : List (ℚ × ℚ) → ℚ
  | [] => 0
  | (x0, y0) :: rest => if x ≤ x0 then y0 else np_interp_go x x0 y0 rest

/-- The list of `(index, value)` pairs at the non-NaN positions of `data`
(the `x_array[is_not_nan(data)]` and `data[is_not_nan(data)]` of
`interp_nans`, `average_data.py` lines 313-324). -/
def not_nan_points (data : List (Option ℚ)) : List (ℚ × ℚ) :=
  data.enum.filterMap (fun p => p.2.map (fun v => ((p.1 : ℚ), v)))

/-- `interp_nans` (`average_data.py` lines 306-326): replace every NaN by
`np.interp` of its index position against the non-NaN positions.  When there
are no non-NaN points at all (all-NaN or empty input), `np.interp` raises
`ValueError: array of sample points is empty`, which we surface as
`.error`. -/
def interp_nans (data : List (Option ℚ)) : Except String (List ℚ) :=
  let pts := not_nan_points data
  if pts.isEmpty then
    .error "ValueError: array of sample points is empty"
  else
    .ok (data.enum.map (fun p =>
      match p.2 with
      | some v => v
      | none => np_interp (p.1 : ℚ) pts))

/-- `np.percentile data q` with the default linear interpolation method:
sort ascending, take the virtual index `h = q * (n - 1) / 100`, and
interpolate between the neighbouring order statistics.  `np.percentile`
propagates NaN (any NaN in the input makes the result NaN) and raises on an
empty array; both are modelled as `none`. -/
def np_percentile (data : List (Option ℚ)) (q : ℚ) : Option ℚ :=
  if data.any (fun x => x.isNone) then none
  else
    let vals := List.insertionSort (· ≤ ·) (data.filterMap id)
    match vals with
    | [] => none
    | _ =>
      let n := vals.length
      let h := q * ((n : ℚ) - 1) / 100
      let i0 := ⌊h⌋₊
      let frac := h - (i0 : ℚ)
      some (vals.getD i0 0 + frac * (vals.getD (min (i0 + 1) (n - 1)) 0 - vals.getD i0 0))

/-- `outliers_to_nans` (`average_data.py` lines 329-339): compute the values
at the two percentiles of the whole series and replace every sample strictly
outside `[min_value, max_value]` by NaN.  When the series already holds a
NaN, `np.percentile` yields NaN, every comparison with it is false, and the
data comes back unchanged. -/
def outliers_to_nans (data : List (Option ℚ)) (min_percentile max_percentile : ℚ) :
    List (Option ℚ) :=
  match np_percentile data min_percentile, np_percentile data max_percentile with
  | some min_value, some max_value =>
      data.map (fun x =>
        match x with
        | some v => if v > max_value ∨ v < min_value then none else some v
        | none => none)
  | _, _ => data

/-- The per-column body of `handle_outliers_interp` (`average_data.py`
lines 298-301): mask outliers to NaN, then fill every NaN by linear
interpolation. -/
def handle_outliers_series (data : List (Option ℚ)) (min_percentile max_percentile : ℚ) :
    Except String (List ℚ) :=
  interp_nans (outliers_to_nans data min_percentile max_percentile)

/-- `handle_outliers_interp` (`average_data.py` lines 285-303): apply the
outlier mask and interpolation to each listed column of the frame in turn.
A missing column is a Python `KeyError`. -/
def handle_outliers_interp (data : List (String × List (Option ℚ))) (keys : List String)
    (min_percentile max_percentile : ℚ) :
    Except String (List (String × List (Option ℚ))) :=
  keys.foldlM (fun df key =>
    match List.lookup key df with
    | none => .error ("KeyError: " ++ key)
    | some col =>
        (handle_outliers_series col min_percentile max_percentile).map
          (fun filled => df.map (fun p => if p.1 == key then (p.1, filled.map some) else p)))
    data

/-! ## Station importer: `import_data.py` lines 74-113

A parsed station table is modelled as a list of `(timestamp, row)` pairs,
already sorted ascending by timestamp (the importer sorts before slicing).
Timestamps are integers. -/

/-- `date_valid` (`import_data.py` lines 101-113): the window is valid when
the first index entry is at or before `start_date` and the last is at or
after `stop_date`.  Python raises `IndexError` on an empty frame; the
importer only calls this on non-empty frames, and the empty branch here
returns `false`. -/
def date_valid {α : Type} (data : List (ℤ × α)) (start_date stop_date : ℤ) : Bool :=
  match data.head?, data.getLast? with
  | some f, some l => decide (f.1 ≤ start_date) && decide (l.1 ≥ stop_date)
  | _, _ => false

/-- `slice_data_for_dates` (`import_data.py` lines 74-98): when the window
is covered, slice with `data[start_date:stop_date]`.  Pandas label slicing
on a datetime index keeps every row whose timestamp lies in the closed
interval `[start, stop]` — both endpoints included.  An empty slice or an
uncovered window returns the original table with validity `false`. -/
def slice_data_for_dates {α : Type} (data : List (ℤ × α)) (start stop : ℤ) :
    List (ℤ × α) × Bool :=
  if date_valid data start stop then
    let sliced := data.filter (fun r => decide (start ≤ r.1) && decide (r.1 ≤ stop))
    if sliced.isEmpty then (data, false) else (sliced, true)
  else
    (data, false)

/-! ## Resampler: `average_data.py` lines 155-233 -/

/-- The numeric value of a decimal digit character, `none` otherwise. -/
def char_digit (c : Char) : Option ℕ :=
  if 48 ≤ c.toNat ∧ c.toNat ≤ 57 then some (c.toNat - 48) else none

/-- Parse a non-empty string of decimal digits, most significant first. -/
def parse_digits_aux (acc : ℕ) : List Char → Option ℕ
  | [] => some acc
  | c :: cs =>
      match char_digit c with
      | some d => parse_digits_aux (acc * 10 + d) cs
      | none => none

/-- Parse a non-empty all-digit character list as a natural number. -/
def parse_digits : List Char → Option ℕ
  | [] => none
  | c :: cs => parse_digits_aux 0 (c :: cs)

/-- `pd.Timedelta` on the frequency strings the pipeline uses: a decimal
number suffixed by `s` (seconds) or `T` (minutes), returned in seconds.
An unparsable string raises, modelled as `none`. -/
def pd_Timedelta (s : String) : Option ℕ :=
  match s.data.reverse with
  | 's' :: rest => parse_digits rest.reverse
  | 'T' :: rest => (parse_digits rest.reverse).map (· * 60)
  | _ => none

/-- Python compares `str` values lexicographically by code point, with a
proper prefix ordered before its extensions.  This is the comparison the
source applies to the two frequency strings. -/
def py_chars_lt : List Char → List Char → Bool
  | _, [] => false
  | [], _ :: _ => true
  | a :: as, b :: bs => if a < b then true else if b < a then false else py_chars_lt as bs

/-- Python `a < b` on strings. -/
def py_str_lt (a b : String) : Bool :=
  py_chars_lt a.data b.data

/-- `is_multiple` (`average_data.py` lines 190-197): whether the larger
timedelta is an exact multiple of the smaller one
(`large_td % small_td == pd.Timedelta('0T')`). -/
def is_multiple (large_td small_td : ℕ) : Bool :=
  large_td % small_td == 0

/-- `get_resampler_dict` (`average_data.py` lines 200-233): the per-field
aggregation reducers for each network.  For an unknown operator the Python
function falls off every branch and raises `UnboundLocalError` on its
`return ret_dict`. -/
def get_resampler_dict (operator : String) : Except String (List (String × String)) :=
  if operator == "NMDB" then
    .ok [("counts", "sum")]
  else if operator == "COSMOS-US" then
    .ok [("MOD", "sum"), ("UNMO", "sum"), ("PRESS", "mean"), ("TEM", "mean"),
         ("RH", "mean"), ("BATT", "mean")]
  else if operator == "COSMOS-UK" then
    .ok [("CTS_MOD", "sum"), ("CTS_MOD2", "sum"), ("CTS_BARE", "sum"),
         ("PA", "mean"), ("Q", "mean"), ("CTS_MOD_QCFLAG", "sum"),
         ("CTS_MOD2_QCFLAG", "sum"), ("CTS_BARE_QCFLAG", "sum"),
         ("PA_QCFLAG", "sum"), ("Q_QCFLAG", "sum")]
  else
    .error "UnboundLocalError: ret_dict"

/-- The pandas resampling operation `resample_data` hands the data to:
either nearest-point snapping onto the regular grid, or per-field
aggregation with the reducer dictionary.  The pandas engine itself is an
external library, kept abstract. -/
inductive PandasResample (α : Type) where
  | nearest : α → String → PandasResample α
  | agg : α → String → List (String × String) → PandasResample α
deriving DecidableEq

/-- `resample_data` (`average_data.py` lines 155-187).  Both frequency
strings are parsed with `pd.Timedelta` (raising on bad input).  Equal
timedeltas snap to the nearest grid point.  Otherwise the source compares
`new_frequency > original_frequency` on the **strings** (code-point
lexicographic, exactly as Python compares `str`), not on the parsed
timedeltas, and only then checks `is_multiple` on the timedeltas. -/
def resample_data {α : Type} (data : α) (operator : String)
    (original_frequency new_frequency : String) :
    Except String (PandasResample α) :=
  match pd_Timedelta original_frequency, pd_Timedelta new_frequency with
  | some original_frequency_td, some new_frequency_td =>
    if original_frequency_td == new_frequency_td then
      .ok (.nearest data new_frequency)
    else if py_str_lt original_frequency new_frequency then
      if is_multiple new_frequency_td original_frequency_td then
        (get_resampler_dict operator).map (fun d => .agg data new_frequency d)
      else
        .error "New frequency must be a multiple of the original frequency"
    else
      .error "New frequency must be = n * original frequency for n an int > 0"
  | _, _ => .error "ValueError: could not parse Timedelta"

/-! ## Path prompt loop: `average_data.py` lines 95-110 -/

/-- Outcome of running the `check_path_exists` loop for a bounded number of
iterations: a normal return through `break`, the `exit(2)` call, or still
looping (which also covers blocking forever on `input()` once the supplied
responses run out). -/
inductive PathCheckResult where
  | returned : String → PathCheckResult
  | exitedWithCode : ℕ → PathCheckResult
  | stillLooping : PathCheckResult
deriving DecidableEq

/-- The `while True` body of `check_path_exists`: the existence test reads
the original `path` argument; on failure `ret_path` is rebound to the next
user input and the exit test again reads `path`, not the input. -/
def check_path_exists_loop (pathExists : String → Bool) (path ret_path : String)
    (inputs : List String) : ℕ → PathCheckResult
  | 0 => .stillLooping
  | fuel + 1 =>
    if pathExists path then .returned ret_path
    else
      match inputs with
      | [] => .stillLooping
      | i :: rest =>
          if path == "exit" then .exitedWithCode 2
          else check_path_exists_loop pathExists path i rest fuel

/-- `check_path_exists` (`average_data.py` lines 95-110) run against a
filesystem predicate and a stream of user responses, for at most `fuel`
loop iterations. -/
def check_path_exists (pathExists : String → Bool) (path : String)
    (inputs : List String) (fuel : ℕ) : PathCheckResult :=
  check_path_exists_loop pathExists path path inputs fuel

/-! ## Correction engine: `coscal/correct_data.py`

Embedded over `ℝ` (Python float arithmetic idealized as real arithmetic);
NaN is again `none`. -/

/-- `np.nanmean`: the mean of the non-NaN entries. -/
noncomputable def np_nanmean (xs : List (Option ℝ)) : ℝ :=
  let valid := xs.filterMap id
  valid.sum / valid.length

/-- `attenuation_length` (`correct_data.py` lines 97-122): the Desilets &
Zreda 2003 mass attenuation length, a polynomial in the cutoff rigidity and
the atmospheric depth `depth = pressure * 0.981`. -/
noncomputable def attenuation_length (pressure rigidity : ℝ) : ℝ :=
  let c_0 : ℝ := 5.4196 * (10 : ℝ) ^ (-3 : ℤ)
  let c_1 : ℝ := 2.2082 * (10 : ℝ) ^ (-4 : ℤ)
  let c_2 : ℝ := -5.1952 * (10 : ℝ) ^ (-7 : ℤ)
  let c_3 : ℝ := 7.2062 * (10 : ℝ) ^ (-6 : ℤ)
  let c_4 : ℝ := -1.9702 * (10 : ℝ) ^ (-6 : ℤ)
  let c_5 : ℝ := -9.8334 * (10 : ℝ) ^ (-9 : ℤ)
  let c_6 : ℝ := 3.4201 * (10 : ℝ) ^ (-9 : ℤ)
  let c_7 : ℝ := 4.9898 * (10 : ℝ) ^ (-12 : ℤ)
  let c_8 : ℝ := -1.7192 * (10 : ℝ) ^ (-12 : ℤ)
  let depth := pressure * 0.981
  c_0 + c_1 * rigidity + c_2 * rigidity ^ 2 + (c_3 + c_4 * rigidity) * depth
    + (c_5 + c_6 * rigidity) * depth ^ 2 + (c_7 + c_8 * rigidity) * depth ^ 3

/-- `pressure_correction` (`correct_data.py` lines 62-79): per-sample factor
`exp((P - P0) * beta(P0, rigidity))` with `P0` the series mean pressure. -/
noncomputable def pressure_correction (pressure : List (Option ℝ)) (rigidity : ℝ) :
    List (Option ℝ) :=
  let p_0 := np_nanmean pressure
  let mass_attenuation_length := attenuation_length p_0 rigidity
  pressure.map (fun p => p.map (fun x => Real.exp ((x - p_0) * mass_attenuation_length)))

/-! ## Aggregator statistics: `average_data.py` lines 342-430 -/

/-- `np.nansum` over one aligned column of the ensemble: NaN counts as 0. -/
noncomputable def np_nansum (col : List (Option ℝ)) : ℝ :=
  (col.map (fun x => x.getD 0)).sum

/-- `np.count_nonzero(~np.isnan(col))`: the number of non-NaN contributors
at one timestamp. -/
def count_not_nan (col : List (Option ℝ)) : ℕ :=
  (col.filter (fun x => x.isSome)).length

/-- The number of aligned timestamps of an ensemble matrix (the common row
length; the aggregator only stacks rows of identical length). -/
def column_count (m : List (List (Option ℝ))) : ℕ :=
  match m with
  | [] => 0
  | r :: _ => r.length

/-- Column `j` of an ensemble matrix: one entry per station row. -/
def ensemble_column (m : List (List (Option ℝ))) (j : ℕ) : List (Option ℝ) :=
  m.map (fun row => row.getD j none)

/-- `np.nansum(m, axis=0)`: per-timestamp sum down the station rows. -/
noncomputable def np_nansum_axis0 (m : List (List (Option ℝ))) : List ℝ :=
  (List.range (column_count m)).map (fun j => np_nansum (ensemble_column m j))

/-- `np.count_nonzero(~np.isnan(m), axis=0)`: per-timestamp count of
non-NaN station contributions. -/
def count_not_nan_axis0 (m : List (List (Option ℝ))) : List ℕ :=
  (List.range (column_count m)).map (fun j => count_not_nan (ensemble_column m j))

/-- `average_each_key` (`average_data.py` lines 376-393).  Each field's
ensemble is a matrix whose rows are the contributing stations and whose
columns are the aligned timestamps.  Per column: sum with `nansum`, count
the non-NaN contributors, store the Poisson percentage error
`sqrt(summed) / summed * 100` under `E_<key>` and the mean `summed / count`
under `<key>`.  A key absent from the dict is a Python `KeyError`. -/
noncomputable def average_each_key (data_dict : List (String × List (List (Option ℝ))))
    (keys : List String) : Except String (List (String × List ℝ)) :=
  keys.foldlM (fun average key =>
    match List.lookup key data_dict with
    | none => .error ("KeyError: " ++ key)
    | some m =>
        let summed := np_nansum_axis0 m
        let num_not_nan := count_not_nan_axis0 m
        .ok (average ++
          [("E_" ++ key, summed.map (fun s => Real.sqrt s / s * 100)),
           (key, List.zipWith (fun (s : ℝ) (c : ℕ) => s / (c : ℝ)) summed num_not_nan)]))
    []

/-- `convert_to_rel_change` (`average_data.py` lines 410-423): percentage
deviation from the mean of the first 48 samples. -/
noncomputable def convert_to_rel_change (data : List ℝ) : List ℝ :=
  let data_mean := np_nanmean ((data.take 48).map some)
  data.map (fun x => (x - data_mean) / data_mean * 100)

/-- `normalise_std` (`average_data.py` lines 426-430): elementwise
`std / data * 100`. -/
noncomputable def normalise_std (std_array data_array : List ℝ) : List ℝ :=
  List.zipWith (fun s v => s / v * 100) std_array data_array

/-- `dict_to_rel_change` (`average_data.py` lines 396-407).  For each key it
stores the relative change of `data_dict[key]` and then evaluates
`data_dict[key + '_std']` to normalise the error; a missing key is a Python
`KeyError`. -/
noncomputable def dict_to_rel_change (data_dict : List (String × List ℝ))
    (keys : List String) : Except String (List (String × List ℝ)) :=
  keys.foldlM (fun rel_change key =>
    match List.lookup key data_dict with
    | none => .error ("KeyError: " ++ key)
    | some v =>
        match List.lookup (key ++ "_std") data_dict with
        | none => .error ("KeyError: " ++ key ++ "_std")
        | some s =>
            .ok (rel_change ++
              [(key, convert_to_rel_change v), (key ++ "_std", normalise_std s v)]))
    []

/-! ## Aggregator orchestration: `average_data.py` lines 9-92

A station dataframe is a timestamp index plus named columns of possibly-NaN
reals.  File reading (`pd.read_table`) and the pandas resampling engine are
external collaborators, passed in as functions. -/

/-- A pandas dataframe: timestamp index and named value columns. -/
structure DFrame where
  index : List ℤ
  cols : List (String × List (Option ℝ))

/-- The per-operator metadata keys of `get_other_keys` (`average_data.py`
lines 113-133).  For an unknown operator the Python function returns an
empty dict, so the caller's first access `other_keys['meta_sep']` raises
`KeyError`; that case is `none` here. -/
structure OtherKeys where
  meta_sep : String
  name_column : String
  length_mod : ℤ
  extension : String

/-- `get_other_keys` (`average_data.py` lines 113-133). -/
def get_other_keys (operator : String) : Option OtherKeys :=
  if operator == "COSMOS-US" then
    some { meta_sep := "\t", name_column := "SiteName", length_mod := 0, extension := ".txt" }
  else if operator == "COSMOS-UK" then
    some { meta_sep := ",", name_column := "SITE_ID", length_mod := 1, extension := ".csv" }
  else
    none

/-- `get_data_keys` (`average_data.py` lines 136-152). -/
def get_data_keys (operator : String) : Except String (List String) :=
  if operator == "COSMOS-US" then .ok ["MOD", "UNMO"]
  else if operator == "COSMOS-UK" then .ok ["CTS_MOD"]
  else if operator == "NMDB" then .ok ["counts"]
  else .error ("KeyError: " ++ operator ++ " is not a valid operator")

/-- `get_error_keys` (`average_data.py` lines 236-251).  Note that `NMDB`
falls into the `else` branch and raises. -/
def get_error_keys (operator : String) : Except String (List String) :=
  if operator == "COSMOS-US" then .ok ["E_MOD", "E_UNMO"]
  else if operator == "COSMOS-UK" then .ok ["E_CTS_MOD"]
  else .error ("KeyError: " ++ operator ++ " is not a valid operator")

/-- `get_qc_dict` (`average_data.py` lines 269-282). -/
def get_qc_dict : List (String × String) :=
  [("CTS_MOD", "CTS_MOD_QCFLAG"), ("CTS_MOD2", "CTS_MOD2_QCFLAG"),
   ("CTS_BARE", "CTS_BARE_QCFLAG"), ("PA", "PA_QCFLAG"), ("Q", "Q_QCFLAG")]

/-- `qc_check_data` (`average_data.py` lines 254-266): for each
`(data column, flag column)` pair, NaN out the data entries whose flag is
strictly positive (a NaN flag compares false and leaves the entry alone).
A frame missing either column is a Python `KeyError`. -/
noncomputable def qc_check_data (data : DFrame) : Except String DFrame :=
  get_qc_dict.foldlM (fun df kv =>
    match List.lookup kv.2 df.cols with
    | none => .error ("KeyError: " ++ kv.2)
    | some flagcol =>
        match List.lookup kv.1 df.cols with
        | none => .error ("KeyError: " ++ kv.1)
        | some keycol =>
            .ok { df with cols := df.cols.map (fun p =>
              if p.1 == kv.1 then
                (p.1, List.zipWith (fun v f => if f.getD 0 > 0 then none else v) keycol flagcol)
              else p) })
    data

/-- The body of the per-station loop (`average_data.py` lines 45-83).
`.ok ()` means the station was skipped (excluded, out of rigidity range,
invalid or empty import, or resampled-length mismatch); `.error` aborts
the whole run.  Every station that survives all the skip checks reaches
line 67, `coscal.apply_corrections(...)`: the name `coscal` is not bound in
`average_data.py` (only `from coscal.correct_data import apply_corrections`
was imported), so an accepted station raises `NameError` there and lines
69-83 (outlier handling, the contributing-stations append and the
`all_data` / `index` assignments) are unreachable. -/
noncomputable def process_station (importData : String → DFrame × Bool)
    (applyResample : PandasResample DFrame → DFrame)
    (operator original_frequency new_frequency : String)
    (rig_min rig_max : ℚ) (excluded_stations : List String)
    (extension : String) (length : ℚ) (st : String × ℚ) : Except String Unit :=
  if st.1 ∈ excluded_stations then .ok ()
  else
    let filename := st.1 ++ extension
    if ¬ (rig_min ≤ st.2 ∧ st.2 ≤ rig_max) then .ok ()
    else
      let imported := importData filename
      if imported.2 && !imported.1.index.isEmpty then
        (resample_data imported.1 operator original_frequency new_frequency).bind
          (fun rs =>
            let station_data := applyResample rs
            if (station_data.index.length : ℚ) ≠ length then .ok ()
            else
              (if operator == "COSMOS-UK" then qc_check_data station_data
               else .ok station_data).bind
                (fun _ => .error "NameError: name coscal is not defined"))
      else .ok ()

/-- The loop-carried locals of `average_neutron_data`: `all_data` and
`index` start out unassigned (modelled `none`) and are assigned only in the
unreachable lines 76-83; the contributing-stations log starts empty. -/
structure LoopState where
  all_data : Option (List (String × List (List (Option ℝ))))
  index : Option (List ℤ)
  contributing_names : List String
  contributing_rigidities : List ℚ

/-- `average_neutron_data` (`average_data.py` lines 9-92).  The interactive
`check_path_exists` calls and `os.chdir` are filesystem collaborators; the
metadata table they guard arrives as `names` and `rigidity_list`, and
per-station files arrive through `importData`.  After the loop, line 85
evaluates `average_each_key(all_data, data_keys)`: when no station was
accepted `all_data` was never assigned and Python raises
`UnboundLocalError`. -/
noncomputable def average_neutron_data (importData : String → DFrame × Bool)
    (applyResample : PandasResample DFrame → DFrame)
    (names : List String) (rigidity_list : List ℚ) (operator : String)
    (start_date stop_date : ℤ) (rig_min rig_max : ℚ)
    (original_frequency new_frequency : String) (excluded_stations : List String) :
    Except String ((List (String × List ℝ) × List ℤ) × (List String × List ℚ)) := do
  let some other_keys := get_other_keys operator
    | .error "KeyError: meta_sep"
  let data_keys ← get_data_keys operator
  let _error_keys ← get_error_keys operator
  let some new_frequency_td := pd_Timedelta new_frequency
    | .error "ValueError: could not parse Timedelta"
  let length : ℚ :=
    ((stop_date - start_date : ℤ) : ℚ) / (new_frequency_td : ℚ) + (other_keys.length_mod : ℚ)
  let final ← (names.zip rigidity_list).foldlM
      (fun s st =>
        (process_station importData applyResample operator original_frequency
          new_frequency rig_min rig_max excluded_stations other_keys.extension
          length st).map (fun _ => s))
      (⟨none, none, [], []⟩ : LoopState)
  match final.all_data with
  | none => .error "UnboundLocalError: all_data"
  | some all_data => do
      let average ← average_each_key all_data data_keys
      let rel_change ← dict_to_rel_change average data_keys
      match final.index with
      | none => .error "UnboundLocalError: index"
      | some index =>
          .ok ((rel_change, index), (final.contributing_names, final.contributing_rigidities))

/-! ## Theorems -/

/-- Helper: an all-NaN series has no interpolation sample points. -/
lemma not_nan_points_eq_nil (data : List (Option ℚ)) (h : ∀ x ∈ data, x = none) :
    not_nan_points data = [] := by
  unfold not_nan_points
  rw [List.filterMap_eq_nil_iff]
  intro p hp
  have hmem : p.2 ∈ data := by
    rw [List.enum_eq_zip_range] at hp
    exact (List.of_mem_zip hp).2
  rw [h p.2 hmem]
  rfl

/-- C10: for every data series in which every value is missing (all-NaN,
e.g. after QC masking flags every sample), `interp_nans` raises
`ValueError` instead of returning a series: `np.interp` with an empty set
of valid sample points is not total. -/
theorem C10_interp_nans_all_nan_errors (data : List (Option ℚ))
    (h : ∀ x ∈ data, x = none) :
    interp_nans data = .error "ValueError: array of sample points is empty" := by
  simp [interp_nans, not_nan_points_eq_nil data h]

/-- C10 witness: a concrete all-NaN series of length 3. -/
theorem C10_witness :
    interp_nans [none, none, none] = .error "ValueError: array of sample points is empty" :=
  C10_interp_nans_all_nan_errors [none, none, none] (by decide)

set_option maxHeartbeats 1000000 in
/-- C8 counterexample: outlier removal plus interpolation is not
idempotent.  For the series `[6, 7, 100, 0, 1, 2, 100, 8, 9]` with
percentile bounds `(25, 75)`, one application yields
`[6, 7, 5.75, 4.5, 3.25, 2, 5, 8, 9]` but a second application moves the
points again, yielding `[6, 7, 5.75, 4.5, 14/3, 29/6, 5, 5, 5]`. -/
theorem C8_counterexample :
    handle_outliers_series ([6, 7, 100, 0, 1, 2, 100, 8, 9].map some) 25 75 =
        .ok [6, 7, 23/4, 9/2, 13/4, 2, 5, 8, 9] ∧
    (handle_outliers_series ([6, 7, 100, 0, 1, 2, 100, 8, 9].map some) 25 75).bind
        (fun r => handle_outliers_series (r.map some) 25 75) =
        .ok [6, 7, 23/4, 9/2, 14/3, 29/6, 5, 5, 5] ∧
    ([6, 7, 23/4, 9/2, 13/4, 2, 5, 8, 9] : List ℚ) ≠ [6, 7, 23/4, 9/2, 14/3, 29/6, 5, 5, 5] := by
  have h1 : handle_outliers_series ([6, 7, 100, 0, 1, 2, 100, 8, 9].map some) 25 75 =
      .ok [6, 7, 23/4, 9/2, 13/4, 2, 5, 8, 9] := by
    norm_num [handle_outliers_series, outliers_to_nans, np_percentile, interp_nans,
      not_nan_points, np_interp, np_interp_go, List.insertionSort, List.orderedInsert,
      List.getD, List.enum, List.enumFrom, List.filterMap_cons, List.filterMap_nil]
  have h2 : handle_outliers_series
        (([6, 7, 23/4, 9/2, 13/4, 2, 5, 8, 9] : List ℚ).map some) 25 75 =
      .ok [6, 7, 23/4, 9/2, 14/3, 29/6, 5, 5, 5] := by
    norm_num [handle_outliers_series, outliers_to_nans, np_percentile, interp_nans,
      not_nan_points, np_interp, np_interp_go, List.insertionSort, List.orderedInsert,
      List.getD, List.enum, List.enumFrom, List.filterMap_cons, List.filterMap_nil]
  refine ⟨h1, ?_, ?_⟩
  · rw [h1]
    simpa using h2
  · intro h
    have := congrArg (fun l => l.getD 5 0) h
    norm_num [List.getD] at this

/-- C8 amended: outlier removal plus interpolation is idempotent on
NaN-free series all of whose values already lie inside the closed
percentile band — there the first application returns the series unchanged
and a second application changes nothing.  (In general the operation is
not idempotent; see the counterexample.) -/
theorem C8_amended_idempotent_inside_band (data : List ℚ)
    (min_percentile max_percentile mn mx : ℚ)
    (hmn : np_percentile (data.map some) min_percentile = some mn)
    (hmx : np_percentile (data.map some) max_percentile = some mx)
    (hin : ∀ v ∈ data, mn ≤ v ∧ v ≤ mx) :
    handle_outliers_series (data.map some) min_percentile max_percentile = .ok data ∧
    (handle_outliers_series (data.map some) min_percentile max_percentile).bind
        (fun r => handle_outliers_series (r.map some) min_percentile max_percentile) =
      handle_outliers_series (data.map some) min_percentile max_percentile := by
  have hdne : data ≠ [] := by
    intro hd; subst hd; simp [np_percentile] at hmn
  have ho : outliers_to_nans (data.map some) min_percentile max_percentile = data.map some := by
    simp only [outliers_to_nans, hmn, hmx, List.map_map]
    apply List.map_congr_left
    intro v hv
    have hb := hin v hv
    simp only [Function.comp_apply]
    rw [if_neg (by push_neg; exact ⟨hb.2, hb.1⟩)]
  have hpts : not_nan_points (data.map some) = data.enum.map (fun p => ((p.1 : ℚ), p.2)) := by
    unfold not_nan_points
    rw [List.enum_map, List.filterMap_map]
    rw [show ((fun p : ℕ × Option ℚ => p.2.map (fun v => ((p.1 : ℚ), v))) ∘ Prod.map id some)
          = some ∘ (fun p : ℕ × ℚ => ((p.1 : ℚ), p.2)) from by funext p; cases p; rfl]
    rw [List.filterMap_eq_map]
  have hi : interp_nans (data.map some) = .ok data := by
    simp only [interp_nans, hpts]
    rw [if_neg (by simp [List.isEmpty_iff, hdne])]
    congr 1
    rw [List.enum_map, List.map_map]
    rw [show ((fun p : ℕ × Option ℚ =>
            match p.2 with
            | some v => v
            | none => np_interp (p.1 : ℚ) (data.enum.map (fun p => ((p.1 : ℚ), p.2))))
          ∘ Prod.map id some) = Prod.snd from by funext p; cases p; rfl]
    exact List.enum_map_snd data
  have h1 : handle_outliers_series (data.map some) min_percentile max_percentile = .ok data := by
    rw [handle_outliers_series, ho, hi]
  exact ⟨h1, by rw [h1]; exact h1⟩

/-- C8 witness for the amended statement: `[1, 2, 3]` with bounds
`(0, 100)` lies inside its own percentile band, so the operation is the
identity and hence idempotent there. -/
theorem C8_amended_witness :
    handle_outliers_series ([1, 2, 3].map some) 0 100 = .ok [1, 2, 3] ∧
    (handle_outliers_series ([1, 2, 3].map some) 0 100).bind
        (fun r => handle_outliers_series (r.map some) 0 100) =
      handle_outliers_series ([1, 2, 3].map some) 0 100 :=
  C8_amended_idempotent_inside_band [1, 2, 3] 0 100 1 3
    (by norm_num [np_percentile, List.insertionSort, List.orderedInsert, List.getD])
    (by norm_num [np_percentile, List.insertionSort, List.orderedInsert, List.getD])
    (by norm_num)

/-- Helper for C9: whatever the fuel, the responses, and the current
`ret_path`, the loop body never reaches `break` when the original path does
not exist. -/
lemma check_path_exists_loop_no_return (pathExists : String → Bool) (path : String)
    (h : pathExists path = false) :
    ∀ (fuel : ℕ) (inputs : List String) (ret r : String),
      check_path_exists_loop pathExists path ret inputs fuel ≠ .returned r := by
  intro fuel
  induction fuel with
  | zero => intro inputs ret r; simp [check_path_exists_loop]
  | succ n ih =>
    intro inputs ret r
    cases inputs with
    | nil => simp [check_path_exists_loop, h]
    | cons i rest =>
      simp only [check_path_exists_loop, h, Bool.false_eq_true, if_false]
      split
      · simp
      · exact ih rest i r

/-- C9: for every input path that does not exist, `check_path_exists`
never terminates normally — the loop's existence test and its exit test
both re-examine the original `path` argument, which is never reassigned,
so no sequence of user inputs (including `exit`) makes the loop `break`
and return. -/
theorem C9_check_path_exists_never_returns (pathExists : String → Bool) (path : String)
    (h : pathExists path = false) (fuel : ℕ) (inputs : List String) (r : String) :
    check_path_exists pathExists path inputs fuel ≠ .returned r :=
  check_path_exists_loop_no_return pathExists path h fuel inputs path r

/-- C9 witness: with no path existing, seven loop iterations fed
`["retry", "exit", "exit"]` never return normally. -/
theorem C9_witness :
    check_path_exists (fun _ => false) "data_folder" ["retry", "exit", "exit"] 7 ≠
      .returned "data_folder" :=
  C9_check_path_exists_never_returns (fun _ => false) "data_folder" rfl 7
    ["retry", "exit", "exit"] "data_folder"

/-- C2: the failing input.  `1800s` is strictly greater than `900s` as a
timedelta and an exact integer multiple of it, so per the claim the
resampler must aggregate; but `resample_data` compares the two frequency
**strings** lexicographically (`"1800s" < "900s"` because `'1' < '9'`) and
instead raises the ValueError whose own message demands exactly the
condition this input satisfies.  With string-wise larger inputs such as
`"3600s" → "7200s"` the aggregation path is taken with the per-field
reducers of the network. -/
theorem C2_resample_rejects_exact_multiple :
    pd_Timedelta "900s" = some 900 ∧ pd_Timedelta "1800s" = some 1800 ∧
    (900 : ℕ) < 1800 ∧ is_multiple 1800 900 = true ∧
    resample_data () "NMDB" "900s" "1800s" =
      .error "New frequency must be = n * original frequency for n an int > 0" ∧
    resample_data () "NMDB" "3600s" "7200s" = .ok (.agg () "7200s" [("counts", "sum")]) :=
  ⟨rfl, rfl, by decide, rfl, rfl, rfl⟩

/-- C5 counterexample: the slice a valid window returns is **not**
restricted to the half-open window `[start, stop)`.  With timestamps
`[0, 1, 2]` and window `start = 0, stop = 2`, the window is covered and the
returned valid slice still contains the row at timestamp `2 = stop`, which
the half-open reading excludes. -/
theorem C5_counterexample :
    slice_data_for_dates [((0:ℤ), (0:ℤ)), (1, 1), (2, 2)] 0 2 = ([(0, 0), (1, 1), (2, 2)], true) ∧
    ((2:ℤ), (2:ℤ)) ∈ (slice_data_for_dates [((0:ℤ), (0:ℤ)), (1, 1), (2, 2)] 0 2).1 ∧
    ¬((2:ℤ) < (2:ℤ)) := by
  refine ⟨rfl, ?_, by decide⟩
  rw [show (slice_data_for_dates [((0:ℤ), (0:ℤ)), (1, 1), (2, 2)] 0 2).1
        = [(0, 0), (1, 1), (2, 2)] from rfl]
  decide

/-- C5 amended: an uncovered window returns the table unmodified with
validity `false`; a covered window slices to the **closed** interval
`[start, stop]` (pandas label slicing includes the stop endpoint),
reporting invalid exactly when that slice is empty, and the returned valid
slice holds precisely the rows of the table whose timestamp `t` satisfies
`start ≤ t ≤ stop`. -/
theorem C5_amended_closed_window (data : List (ℤ × ℤ)) (start stop : ℤ) :
    (date_valid data start stop = false →
      slice_data_for_dates data start stop = (data, false)) ∧
    (date_valid data start stop = true →
      (data.filter (fun r => decide (start ≤ r.1) && decide (r.1 ≤ stop)) = [] →
        slice_data_for_dates data start stop = (data, false)) ∧
      (data.filter (fun r => decide (start ≤ r.1) && decide (r.1 ≤ stop)) ≠ [] →
        slice_data_for_dates data start stop =
          (data.filter (fun r => decide (start ≤ r.1) && decide (r.1 ≤ stop)), true) ∧
        ∀ r, r ∈ (slice_data_for_dates data start stop).1 ↔
          r ∈ data ∧ start ≤ r.1 ∧ r.1 ≤ stop)) := by
  refine ⟨fun h => by simp [slice_data_for_dates, h], fun h => ⟨fun he => ?_, fun hne => ?_⟩⟩
  · simp [slice_data_for_dates, h, he]
  · have heq : slice_data_for_dates data start stop =
        (data.filter (fun r => decide (start ≤ r.1) && decide (r.1 ≤ stop)), true) := by
      simp [slice_data_for_dates, h, List.isEmpty_iff, hne]
    refine ⟨heq, fun r => ?_⟩
    rw [heq]
    simp [List.mem_filter]

/-- C5 witness: a covered window over `[1, 2]` slices out exactly the two
rows with timestamps 1 and 2 and reports valid. -/
theorem C5_amended_witness :
    slice_data_for_dates [((0:ℤ), (10:ℤ)), (1, 11), (2, 12), (3, 13)] 1 2 =
      ([(1, 11), (2, 12)], true) := by
  have h := ((C5_amended_closed_window [((0:ℤ), (10:ℤ)), (1, 11), (2, 12), (3, 13)] 1 2).2
      (by decide)).2 (by decide)
  exact h.1.trans (by decide)

/-- C6: for every pressure `P0` and rigidity `R`, `attenuation_length`
returns exactly the 9-term polynomial
`c0 + c1 R + c2 R^2 + (c3 + c4 R) D + (c5 + c6 R) D^2 + (c7 + c8 R) D^3`
with `D = P0 * 0.981` and the literal Desilets & Zreda constants. -/
theorem C6_attenuation_length_polynomial (pressure rigidity : ℝ) :
    attenuation_length pressure rigidity =
      5.4196e-3 + 2.2082e-4 * rigidity + (-5.1952e-7) * rigidity ^ 2
        + (7.2062e-6 + (-1.9702e-6) * rigidity) * (pressure * 0.981)
        + ((-9.8334e-9) + 3.4201e-9 * rigidity) * (pressure * 0.981) ^ 2
        + (4.9898e-12 + (-1.7192e-12) * rigidity) * (pressure * 0.981) ^ 3 := by
  unfold attenuation_length
  norm_num

/-- Helper: a list all of whose entries are `some c` filter-maps to a
replicate of `c`. -/
lemma filterMap_id_all_some (xs : List (Option ℝ)) (c : ℝ) (h : ∀ x ∈ xs, x = some c) :
    xs.filterMap id = List.replicate xs.length c := by
  induction xs with
  | nil => rfl
  | cons a as ih =>
    have ha := h a (List.mem_cons_self a as)
    subst ha
    simp only [List.filterMap_cons, id, List.length_cons, List.replicate_succ]
    rw [ih (fun x hx => h x (List.mem_cons_of_mem _ hx))]

/-- Helper: `np.nanmean` of a non-empty constant series is the constant. -/
lemma np_nanmean_const (xs : List (Option ℝ)) (c : ℝ) (hne : xs ≠ [])
    (h : ∀ x ∈ xs, x = some c) : np_nanmean xs = c := by
  simp only [np_nanmean]
  rw [filterMap_id_all_some xs c h]
  rw [List.sum_replicate, List.length_replicate]
  have hn : (xs.length : ℝ) ≠ 0 := by
    simp [List.length_eq_zero, hne]
  rw [nsmul_eq_mul]
  field_simp

/-- C7: for every constant (flat) pressure series and every rigidity, the
pressure correction factor is exactly 1 at every sample: the series mean
equals the constant, every exponent `(P - P0) * beta` is zero, and
`exp 0 = 1`. -/
theorem C7_flat_pressure_unit_correction (pressure : List (Option ℝ)) (c rigidity : ℝ)
    (hne : pressure ≠ []) (hconst : ∀ x ∈ pressure, x = some c) :
    pressure_correction pressure rigidity = pressure.map (fun _ => some 1) := by
  unfold pressure_correction
  rw [np_nanmean_const pressure c hne hconst]
  apply List.map_congr_left
  intro x hx
  rw [hconst x hx]
  simp

/-- C7 witness: a flat two-sample pressure series at 1013 with rigidity 5
yields the all-ones correction factor. -/
theorem C7_witness :
    pressure_correction [some 1013, some 1013] 5 = [some 1, some 1] := by
  have h := C7_flat_pressure_unit_correction [some 1013, some 1013] 1013 5 (by simp)
    (by intro x hx; simp only [List.mem_cons, List.not_mem_nil, or_false] at hx
        rcases hx with h | h <;> simp [h])
  simpa using h

/-- Helper shared by C4 and C1: `average_each_key` on a single key produces
the `E_<key>` Poisson-error series and the `<key>` mean series. -/
lemma average_each_key_single (data_dict : List (String × List (List (Option ℝ))))
    (key : String) (m : List (List (Option ℝ)))
    (h : List.lookup key data_dict = some m) :
    average_each_key data_dict [key] =
      .ok [("E_" ++ key, (np_nansum_axis0 m).map (fun s => Real.sqrt s / s * 100)),
           (key, List.zipWith (fun (s : ℝ) (c : ℕ) => s / (c : ℝ)) (np_nansum_axis0 m)
              (count_not_nan_axis0 m))] := by
  simp [average_each_key, h, List.foldlM]

/-- C4: the Combine step returns, per timestamp, mean = nansum of the
station rows divided by the count of non-missing contributors, and Poisson
percentage error = `sqrt(summed) / summed * 100` computed from the summed
(not averaged) column. -/
theorem C4_average_each_key_formulas (data_dict : List (String × List (List (Option ℝ))))
    (key : String) (m : List (List (Option ℝ)))
    (h : List.lookup key data_dict = some m) :
    average_each_key data_dict [key] =
      .ok [("E_" ++ key, (np_nansum_axis0 m).map (fun s => Real.sqrt s / s * 100)),
           (key, List.zipWith (fun (s : ℝ) (c : ℕ) => s / (c : ℝ)) (np_nansum_axis0 m)
              (count_not_nan_axis0 m))] ∧
    ∀ j, j < column_count m →
      (List.zipWith (fun (s : ℝ) (c : ℕ) => s / (c : ℝ)) (np_nansum_axis0 m)
          (count_not_nan_axis0 m)).getD j 0
        = np_nansum (ensemble_column m j) / (count_not_nan (ensemble_column m j) : ℝ) ∧
      ((np_nansum_axis0 m).map (fun s => Real.sqrt s / s * 100)).getD j 0
        = Real.sqrt (np_nansum (ensemble_column m j)) / np_nansum (ensemble_column m j)
            * 100 := by
  refine ⟨average_each_key_single data_dict key m h, fun j hj => ?_⟩
  have h1 : (np_nansum_axis0 m).length = column_count m := by
    simp [np_nansum_axis0]
  have h2 : (count_not_nan_axis0 m).length = column_count m := by
    simp [count_not_nan_axis0]
  constructor
  · rw [List.getD_eq_getElem _ _ (by simp only [List.length_zipWith, h1, h2, min_self]; exact hj)]
    rw [List.getElem_zipWith]
    simp [np_nansum_axis0, count_not_nan_axis0, List.getElem_map, List.getElem_range]
  · rw [List.getD_eq_getElem _ _ (by simp only [List.length_map, h1]; exact hj)]
    rw [List.getElem_map]
    simp [np_nansum_axis0, List.getElem_map, List.getElem_range]

/-- C4 witness: for the two-station ensemble `[[10,20,30],[30,40,50]]` the
combined mean is `[20,30,40]` and the Poisson error is
`sqrt(s)/s * 100` of the summed row `[40,60,80]`. -/
theorem C4_witness :
    average_each_key
        [("MOD", [[some 10, some 20, some 30], [some 30, some 40, some 50]])] ["MOD"] =
      .ok [("E_MOD", [Real.sqrt 40 / 40 * 100, Real.sqrt 60 / 60 * 100,
                      Real.sqrt 80 / 80 * 100]),
           ("MOD", [20, 30, 40])] := by
  rw [(C4_average_each_key_formulas
      [("MOD", [[some 10, some 20, some 30], [some 30, some 40, some 50]])] "MOD"
      [[some 10, some 20, some 30], [some 30, some 40, some 50]] rfl).1]
  norm_num [np_nansum_axis0, count_not_nan_axis0, column_count, ensemble_column,
    np_nansum, count_not_nan, List.range_succ, List.getD,
    (show ("E_" ++ "MOD" : String) = "E_MOD" from rfl)]

/-- C1: the relative-change normalisation of an averaged field raises
`KeyError` instead of returning a normalised error series:
`average_each_key` stores the Poisson error under `E_<key>`, but
`dict_to_rel_change` reads `<key>_std`, which is never present. -/
theorem C1_dict_to_rel_change_key_error (data_dict : List (String × List (List (Option ℝ))))
    (key : String) (m : List (List (Option ℝ)))
    (h : List.lookup key data_dict = some m) :
    (average_each_key data_dict [key]).bind
        (fun average => dict_to_rel_change average [key]) =
      .error ("KeyError: " ++ key ++ "_std") := by
  rw [average_each_key_single data_dict key m h]
  have hE : ("E_" : String).length = 2 := rfl
  have hstd : ("_std" : String).length = 4 := rfl
  have hne1 : (key == "E_" ++ key) = false := by
    rw [beq_eq_false_iff_ne]
    intro heq
    have := congrArg String.length heq
    rw [String.length_append, hE] at this
    omega
  have hne2 : ((key ++ "_std") == "E_" ++ key) = false := by
    rw [beq_eq_false_iff_ne]
    intro heq
    have := congrArg String.length heq
    rw [String.length_append, String.length_append, hE, hstd] at this
    omega
  have hne3 : ((key ++ "_std") == key) = false := by
    rw [beq_eq_false_iff_ne]
    intro heq
    have := congrArg String.length heq
    rw [String.length_append, hstd] at this
    omega
  simp [dict_to_rel_change, List.foldlM, List.lookup, hne1, hne2, hne3, Except.bind]

/-- C1 witness: running Combine and then the normaliser on the concrete
two-station `MOD` ensemble raises `KeyError: MOD_std`. -/
theorem C1_witness :
    (average_each_key
        [("MOD", [[some 10, some 20, some 30], [some 30, some 40, some 50]])] ["MOD"]).bind
        (fun average => dict_to_rel_change average ["MOD"]) =
      .error "KeyError: MOD_std" :=
  C1_dict_to_rel_change_key_error
    [("MOD", [[some 10, some 20, some 30], [some 30, some 40, some 50]])] "MOD"
    [[some 10, some 20, some 30], [some 30, some 40, some 50]] rfl

/-- Helper for C3: a station that is excluded, out of rigidity range,
invalid or empty on import, or of mismatched resampled length makes the
loop body a no-op (`continue`). -/
lemma process_station_skips (importData : String → DFrame × Bool)
    (applyResample : PandasResample DFrame → DFrame)
    (operator original_frequency new_frequency : String)
    (rig_min rig_max : ℚ) (excluded_stations : List String)
    (extension : String) (length : ℚ) (st : String × ℚ)
    (h : st.1 ∈ excluded_stations ∨ ¬(rig_min ≤ st.2 ∧ st.2 ≤ rig_max) ∨
      (importData (st.1 ++ extension)).2 = false ∨
      (importData (st.1 ++ extension)).1.index = [] ∨
      (∃ rs, resample_data (importData (st.1 ++ extension)).1 operator
          original_frequency new_frequency = .ok rs ∧
        ((applyResample rs).index.length : ℚ) ≠ length)) :
    process_station importData applyResample operator original_frequency new_frequency
      rig_min rig_max excluded_stations extension length st = .ok () := by
  unfold process_station
  by_cases hmem : st.1 ∈ excluded_stations
  · rw [if_pos hmem]
  · rw [if_neg hmem]
    by_cases hrange : ¬(rig_min ≤ st.2 ∧ st.2 ≤ rig_max)
    · rw [if_pos hrange]
    · rw [if_neg hrange]
      rcases h with h | h | h | h | h
      · exact absurd h hmem
      · exact absurd h hrange
      · rw [if_neg (by simp [h])]
      · rw [if_neg (by simp [List.isEmpty_iff, h])]
      · obtain ⟨rs, hrs, hlen⟩ := h
        by_cases hcond : (importData (st.1 ++ extension)).2
              && !(importData (st.1 ++ extension)).1.index.isEmpty
        · rw [if_pos hcond, hrs]
          simp only [Except.bind]
          rw [if_pos hlen]
        · rw [if_neg hcond]

/-- Helper for C3: a loop whose body skips every station leaves the
loop-carried state untouched. -/
lemma foldlM_skip_all {σ : Type} (f : (String × ℚ) → Except String Unit)
    (l : List (String × ℚ)) (s : σ) (h : ∀ st ∈ l, f st = .ok ()) :
    l.foldlM (fun s' st => (f st).map (fun _ => s')) s = .ok s := by
  induction l generalizing s with
  | nil => rfl
  | cons a as ih =>
    rw [List.foldlM_cons, h a (List.mem_cons_self a as)]
    exact ih s (fun st hst => h st (List.mem_cons_of_mem a hst))

/-- C3 amended: when every candidate station is skipped (excluded by name,
outside the rigidity range, invalid or empty import, or resampled-length
mismatch), the run does **not** complete: `all_data` is never assigned, so
the final averaging step aborts with `UnboundLocalError`, returning neither
a table nor a contributing-stations log. -/
theorem C3_all_skipped_aborts (importData : String → DFrame × Bool)
    (applyResample : PandasResample DFrame → DFrame)
    (names : List String) (rigidity_list : List ℚ) (operator : String)
    (start_date stop_date : ℤ) (rig_min rig_max : ℚ)
    (original_frequency new_frequency : String) (excluded_stations : List String)
    (okeys : OtherKeys) (hok : get_other_keys operator = some okeys)
    (dks : List String) (hdk : get_data_keys operator = .ok dks)
    (eks : List String) (hek : get_error_keys operator = .ok eks)
    (ntd : ℕ) (htd : pd_Timedelta new_frequency = some ntd)
    (hskip : ∀ st ∈ names.zip rigidity_list,
      st.1 ∈ excluded_stations ∨ ¬(rig_min ≤ st.2 ∧ st.2 ≤ rig_max) ∨
      (importData (st.1 ++ okeys.extension)).2 = false ∨
      (importData (st.1 ++ okeys.extension)).1.index = [] ∨
      (∃ rs, resample_data (importData (st.1 ++ okeys.extension)).1 operator
          original_frequency new_frequency = .ok rs ∧
        ((applyResample rs).index.length : ℚ) ≠
          ((stop_date - start_date : ℤ) : ℚ) / (ntd : ℚ) + (okeys.length_mod : ℚ))) :
    average_neutron_data importData applyResample names rigidity_list operator
      start_date stop_date rig_min rig_max original_frequency new_frequency
      excluded_stations = .error "UnboundLocalError: all_data" := by
  unfold average_neutron_data
  rw [hok, hdk, hek, htd]
  simp only [Except.bind]
  rw [foldlM_skip_all _ _ _ (fun st hst =>
    process_station_skips importData applyResample operator original_frequency
      new_frequency rig_min rig_max excluded_stations okeys.extension _ st (hskip st hst))]
  rfl

/-- A degenerate importer for the C3 run: every file read comes back
invalid and empty. -/
def cex_importData : String → DFrame × Bool := fun _ => (⟨[], []⟩, false)

/-- A degenerate pandas resampling engine for the C3 run. -/
def cex_applyResample : PandasResample DFrame → DFrame := fun _ => ⟨[], []⟩

/-- C3 counterexample: with the single candidate station excluded by name,
every station is skipped and the run does not return an averaged table at
all — it aborts with `UnboundLocalError`, contradicting the claim that the
run completes with an empty contributing-stations log. -/
theorem C3_counterexample :
    average_neutron_data cex_importData cex_applyResample ["STA"] [5] "COSMOS-US"
        0 3600 0 20 "3600s" "3600s" ["STA"] = .error "UnboundLocalError: all_data" ∧
    ∀ t, average_neutron_data cex_importData cex_applyResample ["STA"] [5] "COSMOS-US"
        0 3600 0 20 "3600s" "3600s" ["STA"] ≠ .ok t := by
  refine ⟨rfl, fun t h => ?_⟩
  rw [show average_neutron_data cex_importData cex_applyResample ["STA"] [5] "COSMOS-US"
        0 3600 0 20 "3600s" "3600s" ["STA"] = .error "UnboundLocalError: all_data" from rfl] at h
  exact Except.noConfusion h

/-- C3 witness for the amended statement: a single station outside the
requested rigidity range `[0, 20]` is skipped and the run aborts with
`UnboundLocalError`. -/
theorem C3_witness :
    average_neutron_data cex_importData cex_applyResample ["STB"] [30] "COSMOS-US"
        0 3600 0 20 "3600s" "3600s" [] = .error "UnboundLocalError: all_data" :=
  C3_all_skipped_aborts cex_importData cex_applyResample ["STB"] [30] "COSMOS-US"
    0 3600 0 20 "3600s" "3600s" [] _ rfl _ rfl _ rfl _ rfl
    (by
      intro st hst
      simp only [List.zip_cons_cons, List.zip_nil_right, List.mem_singleton] at hst
      subst hst
      right; left
      intro hr
      have := hr.2
      norm_num at this)

end SWJ
